import Mathlib

/-!
# Verification of the Arduino Tiny-ML utility scripts

Shallow embedding, in Lean 4, of the core logic of the repository's four
Python scripts:

* `arduino_detection.py` — CSV capture over serial, brightness-based smoke
  classifier (`generar_anomalia`), CSV-to-array conversion, MQTT publishing
  with running counters;
* `arduino_reader.py` — the same CSV capture filter;
* `arduino_test.py` — CSV-to-image conversion: dimension inference fallback,
  row-major reshape, nearest-neighbor upscaling;
* `intentitobb.py` — drone telemetry simulator and its publish path.

Modelling conventions: Python ints are `ℤ`/`ℕ`; Python floats are modelled as
exact rationals `ℚ`; functions that raise return `Option`; the serial stream
is the finite list of lines observed before the bounded wait expires; the
pseudo-random draws of the simulator are supplied by an explicit oracle
record.
-/

namespace ArduinoML

/-! ## Brightness classifier (`arduino_detection.py`, `generar_anomalia`) -/

/-- `brillo_promedio = sum(datos_imagen) / len(datos_imagen)`
(arduino_detection.py line 221), with the float division modelled exactly
over `ℚ`.  For the empty list this is `0/0 = 0` in Lean, but
`generar_anomalia` never evaluates it there (the Python guard returns
early). -/
def promedio (datos : List ℤ) : ℚ :=
  (datos.sum : ℚ) / (datos.length : ℚ)

/-- `rango = max(datos) - min(datos)` (arduino_detection.py lines 222-224);
Python's `min`/`max` require a non-empty list, which the guard ensures, so
the `[]` case here is arbitrary. -/
def rango : List ℤ → ℤ
  | [] => 0
  | x :: xs => xs.foldl max x - xs.foldl min x

/-- `generar_anomalia` (arduino_detection.py lines 213-230): returns the
verdict `"humo"` (smoke) when `(mean < 60 and range < 25)` or
`(mean < 80 and range < 20)`, `"normal"` otherwise, and `"normal"`
unconditionally on the empty array. -/
def generar_anomalia (datos_imagen : List ℤ) : String :=
  match datos_imagen with
  | [] => "normal"
  | x :: xs =>
    if promedio (x :: xs) < 60 ∧ rango (x :: xs) < 25 then "humo"
    else if promedio (x :: xs) < 80 ∧ rango (x :: xs) < 20 then "humo"
    else "normal"

/-- Closed form of the classifier: a single if-then-else over the disjunction
of the two threshold tests. -/
lemma generar_anomalia_eq (datos : List ℤ) :
    generar_anomalia datos =
      if datos ≠ [] ∧ ((promedio datos < 60 ∧ rango datos < 25) ∨
          (promedio datos < 80 ∧ rango datos < 20)) then "humo" else "normal" := by
  match datos with
  | [] => simp [generar_anomalia]
  | x :: xs =>
    by_cases h1 : promedio (x :: xs) < 60 ∧ rango (x :: xs) < 25
    · simp [generar_anomalia, h1]
    · by_cases h2 : promedio (x :: xs) < 80 ∧ rango (x :: xs) < 20
      · simp [generar_anomalia, h1, h2]
      · simp [generar_anomalia, h1, h2]

/-- C1: the classifier returns the smoke verdict `"humo"` exactly when the
array is non-empty and `(mean < 60 ∧ range < 25) ∨ (mean < 80 ∧ range < 20)`,
and `"normal"` otherwise; in particular the empty array yields `"normal"`.
Proved for every integer array, hence for every array of samples in
`[0, 255]`. -/
theorem claim_C1 : ∀ datos : List ℤ,
    generar_anomalia datos =
      if datos ≠ [] ∧ ((promedio datos < 60 ∧ rango datos < 25) ∨
          (promedio datos < 80 ∧ rango datos < 20)) then "humo" else "normal" :=
  generar_anomalia_eq

/-- C4 counterexample: the array `[55, 65]` has mean exactly 60 yet the
classifier returns `"humo"` (the second branch `mean < 80 ∧ range < 20`
fires), and the array `[30, 50]` has range exactly 20 yet the classifier
returns `"humo"` (the first branch `mean < 60 ∧ range < 25` fires).  So
"mean exactly 60" and "range exactly 20" do not preclude the smoke
verdict, contrary to the claim. -/
theorem claim_C4_counterexample :
    promedio [55, 65] = 60 ∧ generar_anomalia [55, 65] = "humo" ∧
    rango [30, 50] = 20 ∧ generar_anomalia [30, 50] = "humo" := by
  have h1 : promedio [55, 65] = 60 := by
    norm_num [promedio, List.sum_cons, List.sum_nil]
  have h2 : promedio [30, 50] = 40 := by
    norm_num [promedio, List.sum_cons, List.sum_nil]
  refine ⟨h1, ?_, by decide, ?_⟩
  · rw [generar_anomalia_eq, if_pos]
    refine ⟨by decide, Or.inr ⟨by rw [h1]; norm_num, by decide⟩⟩
  · rw [generar_anomalia_eq, if_pos]
    refine ⟨by decide, Or.inl ⟨by rw [h2]; norm_num, by decide⟩⟩

/-- C4 (amended): for every non-empty pixel array whose mean is exactly 80 or
whose range is exactly 25, the classifier returns `"normal"`: both threshold
comparisons on the mean (`< 60`, `< 80`) and both on the range (`< 25`,
`< 20`) are strict, so these two boundary values can never produce the smoke
verdict.  (Mean exactly 60 and range exactly 20 can, see the
counterexample.) -/
theorem claim_C4_amended (datos : List ℤ) (hne : datos ≠ [])
    (h : promedio datos = 80 ∨ rango datos = 25) :
    generar_anomalia datos = "normal" := by
  rw [generar_anomalia_eq, if_neg]
  rintro ⟨-, hcond⟩
  rcases h with h | h
  · rcases hcond with ⟨hp, -⟩ | ⟨hp, -⟩ <;> rw [h] at hp <;> norm_num at hp
  · rcases hcond with ⟨-, hr⟩ | ⟨-, hr⟩ <;> rw [h] at hr <;> omega

/-- Witness for C4 (amended) at the concrete array `[80]`, whose mean is
exactly 80. -/
theorem claim_C4_amended_witness :
    (([80] : List ℤ) ≠ []) ∧ (promedio [80] = 80 ∨ rango [80] = 25) ∧
      generar_anomalia [80] = "normal" := by
  have h80 : promedio [80] = 80 := by
    norm_num [promedio, List.sum_cons, List.sum_nil]
  exact ⟨by decide, Or.inl h80,
    claim_C4_amended [80] (by decide) (Or.inl h80)⟩

/-! ## CSV capture/delimiter protocol
(`arduino_detection.py` `capturar_datos_csv` lines 161-203 and
`arduino_reader.py` `capturar_imagen_csv` lines 101-155, identical filter
logic).  The serial stream is modelled as the finite list of lines observed
before the 10-second bound expires. -/

/-- Substring test, used for the sentinel checks (`"..." in linea`). -/
def contiene (sub linea : String) : Bool :=
  linea.data.tails.any (fun t => sub.data.isPrefixOf t)

/-- `"INICIO DATOS CSV" in linea or "===" in linea`
(arduino_detection.py line 184). -/
def es_inicio (linea : String) : Bool :=
  contiene "INICIO DATOS CSV" linea || contiene "===" linea

/-- `"FIN DATOS CSV" in linea or "Copia estos datos" in linea`
(arduino_detection.py line 189). -/
def es_fin (linea : String) : Bool :=
  contiene "FIN DATOS CSV" linea || contiene "Copia estos datos" linea

/-- `linea.startswith('#')`. -/
def empieza_con_numeral (linea : String) : Bool :=
  match linea.data with
  | [] => false
  | c :: _ => c = '#'

/-- `',' in linea and not linea.startswith('#')`
(arduino_detection.py line 193). -/
def es_dato (linea : String) : Bool :=
  linea.data.contains ',' && !(empieza_con_numeral linea)

/-- The capture loop body (arduino_detection.py lines 179-196): start
markers set `capturando` and skip the line; end markers break; while
`capturando`, comma lines not starting with `#` are collected. -/
def capturar_lineas : List String → Bool → List String
  | [], _ => []
  | linea :: resto, capturando =>
    if es_inicio linea then capturar_lineas resto true
    else if es_fin linea then []
    else if capturando && es_dato linea then linea :: capturar_lineas resto capturando
    else capturar_lineas resto capturando

/-- An effective end marker: a line that breaks the loop, i.e. contains an
end marker but no start marker (the start-marker test runs first and
`continue`s). -/
def fin_efectivo (linea : String) : Bool :=
  !(es_inicio linea) && es_fin linea

/-- A line the loop actually collects once capture is on: no start marker,
has a comma, does not start with `#`. -/
def acepta_dato (linea : String) : Bool :=
  !(es_inicio linea) && es_dato linea

/-- The capture filter, restated per the amended C3: truncate the stream at
the first effective end marker, drop everything up to and including the
first start-marker line, and keep the lines that carry data and are not
themselves start markers. -/
def capturar_spec (lineas : List String) : List String :=
  match (lineas.takeWhile (fun l => !(fin_efectivo l))).dropWhile
      (fun l => !(es_inicio l)) with
  | [] => []
  | _ :: resto => resto.filter acepta_dato

lemma capturar_lineas_true (ls : List String) :
    capturar_lineas ls true =
      (ls.takeWhile (fun l => !(fin_efectivo l))).filter acepta_dato := by
  induction ls with
  | nil => rfl
  | cons l ls ih =>
    cases h1 : es_inicio l <;> cases h2 : es_fin l <;> cases h3 : es_dato l <;>
      simp [capturar_lineas, fin_efectivo, acepta_dato, h1, h2, h3,
        List.takeWhile_cons, List.filter_cons, ih]

lemma capturar_lineas_eq_spec (ls : List String) :
    capturar_lineas ls false = capturar_spec ls := by
  induction ls with
  | nil => rfl
  | cons l ls ih =>
    cases h1 : es_inicio l <;> cases h2 : es_fin l <;>
      simp [capturar_lineas, capturar_spec, fin_efectivo, h1, h2,
        List.takeWhile_cons, List.dropWhile_cons, ih,
        capturar_lineas_true, acepta_dato]

/-- C3 counterexample: in the stream `["===", "1,2===", "FIN DATOS CSV"]`
the middle line is observed strictly after a line containing a start marker
and strictly before a line containing an end marker, contains a comma and
does not start with `#` — so the claim says it is captured — yet the code
captures nothing: the line itself contains `"==="`, so the start-marker
test consumes it before the data test runs. -/
theorem claim_C3_counterexample :
    capturar_lineas ["===", "1,2===", "FIN DATOS CSV"] false = [] ∧
    es_inicio "===" = true ∧ es_fin "FIN DATOS CSV" = true ∧
    es_dato "1,2===" = true ∧ empieza_con_numeral "1,2===" = false := by
  decide

/-- C3 (amended): a line is accepted as a data line exactly when it is
observed strictly after some line containing a start marker and strictly
before the first line that contains an end marker without containing a
start marker, does not itself contain a start marker, contains a comma and
does not start with `#` — formalised as `capturar_lineas ls false =
capturar_spec ls`.  In particular, on the stream
`["noise", "===", "1,2", "3,4", "FIN DATOS CSV"]` the captured data lines
are exactly `["1,2", "3,4"]`, in that order. -/
theorem claim_C3_amended :
    (∀ lineas : List String, capturar_lineas lineas false = capturar_spec lineas) ∧
    capturar_lineas ["noise", "===", "1,2", "3,4", "FIN DATOS CSV"] false =
      ["1,2", "3,4"] :=
  ⟨capturar_lineas_eq_spec, by decide⟩

/-- `capturar_datos_csv` (arduino_detection.py lines 161-203): run the
filter over the lines observed before the bound expires; afterwards return
the captured lines if any were collected, `None` (here `none`, printing
"No se capturaron datos") otherwise. -/
def capturar_datos_csv (lineas : List String) : Option (List String) :=
  let datos_csv := capturar_lineas lineas false
  if datos_csv = [] then none else some datos_csv

/-- C7 counterexample: the stream `["===", "1,2"]` contains no end marker at
all, yet after the bounded wait the capture returns the data line `"1,2"`
instead of reporting "no data captured". -/
theorem claim_C7_counterexample :
    capturar_datos_csv ["===", "1,2"] = some ["1,2"] ∧
    (["===", "1,2"] : List String).all (fun l => !(es_fin l)) = true := by
  decide

/-- C7 (amended): when the end marker never appears before the bounded wait
expires, the capture stops at the timeout and reports "no data captured"
(returns `none`) exactly when no data line was collected; if data lines
were collected after the start marker, they are returned despite the
missing end marker. -/
theorem claim_C7_amended (lineas : List String)
    (h : ∀ l ∈ lineas, es_fin l = false) :
    (capturar_datos_csv lineas = none ↔ capturar_lineas lineas false = []) ∧
    (capturar_lineas lineas false ≠ [] →
      capturar_datos_csv lineas = some (capturar_lineas lineas false)) := by
  unfold capturar_datos_csv
  by_cases hd : capturar_lineas lineas false = [] <;> simp [hd]

/-- Witness for C7 (amended) at the concrete stream `["noise"]`, which has
no end marker and no data line. -/
theorem claim_C7_amended_witness :
    (∀ l ∈ (["noise"] : List String), es_fin l = false) ∧
    ((capturar_datos_csv ["noise"] = none ↔
        capturar_lineas ["noise"] false = []) ∧
      (capturar_lineas ["noise"] false ≠ [] →
        capturar_datos_csv ["noise"] = some (capturar_lineas ["noise"] false))) :=
  ⟨by decide, claim_C7_amended ["noise"] (by decide)⟩

/-! ## CSV-line pixel extractor
(`arduino_detection.py` `convertir_csv_a_array` lines 205-211:
`fila = [int(val.strip()) for val in linea.split(',') if val.strip()]`,
rows concatenated with `valores.extend(fila)`).  `int()` on a malformed
token raises `ValueError`, modelled by `none`. -/

/-- Python whitespace stripped by `str.strip()` (the common cases). -/
def es_espacio (c : Char) : Bool :=
  c = ' ' || c = '\t' || c = '\n' || c = '\r'

/-- `val.strip()`: drop whitespace from both ends. -/
def recortar (l : List Char) : List Char :=
  ((l.dropWhile es_espacio).reverse.dropWhile es_espacio).reverse

/-- `linea.split(',')`: split on every comma, keeping empty fields. -/
def dividir_comas : List Char → List (List Char)
  | [] => [[]]
  | c :: resto =>
    if c = ',' then [] :: dividir_comas resto
    else
      match dividir_comas resto with
      | [] => [[c]]
      | t :: ts => (c :: t) :: ts

/-- Value of a digit string, most significant first. -/
def digitos_a_nat (l : List Char) : ℕ :=
  l.foldl (fun acc c => 10 * acc + (c.toNat - '0'.toNat)) 0

/-- Python `int(s)` on an already-stripped string: an optional sign followed
by at least one decimal digit; anything else raises (`none`). -/
def parse_int (l : List Char) : Option ℤ :=
  match l with
  | [] => none
  | c :: resto =>
    if c = '-' then
      if resto ≠ [] ∧ resto.all Char.isDigit then some (-(digitos_a_nat resto : ℤ))
      else none
    else if c = '+' then
      if resto ≠ [] ∧ resto.all Char.isDigit then some (digitos_a_nat resto : ℤ)
      else none
    else if (c :: resto).all Char.isDigit then some (digitos_a_nat (c :: resto) : ℤ)
    else none

/-- One row: `[int(val.strip()) for val in tokens if val.strip()]` —
tokens empty after stripping are skipped; a malformed non-empty token
aborts the whole row. -/
def parse_fila : List (List Char) → Option (List ℤ)
  | [] => some []
  | v :: resto =>
    if recortar v = [] then parse_fila resto
    else
      match parse_int (recortar v), parse_fila resto with
      | some n, some ns => some (n :: ns)
      | _, _ => none

/-- `convertir_csv_a_array` applied to one line. -/
def convertir_linea (linea : String) : Option (List ℤ) :=
  parse_fila (dividir_comas linea.data)

/-- `convertir_csv_a_array` (arduino_detection.py lines 205-211): parse
every line and concatenate the rows in arrival order; any failing token
aborts the whole extraction. -/
def convertir_csv_a_array : List String → Option (List ℤ)
  | [] => some []
  | linea :: resto =>
    match convertir_linea linea, convertir_csv_a_array resto with
    | some fila, some valores => some (fila ++ valores)
    | _, _ => none

/-- C5: the extractor flattens the parsed rows in arrival order — the value
on `linea :: lineas` is the row parsed from `linea` followed by the
flattening of the remaining lines. -/
theorem claim_C5 (linea : String) (lineas : List String) (vs vss : List ℤ)
    (h1 : convertir_linea linea = some vs)
    (h2 : convertir_csv_a_array lineas = some vss) :
    convertir_csv_a_array (linea :: lineas) = some (vs ++ vss) := by
  simp [convertir_csv_a_array, h1, h2]

/-- Witness for C5: the rows `["1,2,3", "4,5"]` flatten to
`[1, 2, 3, 4, 5]` in that order. -/
theorem claim_C5_witness :
    convertir_csv_a_array ["1,2,3", "4,5"] = some [1, 2, 3, 4, 5] :=
  claim_C5 "1,2,3" ["4,5"] [1, 2, 3] [4, 5] (by decide) (by decide)

lemma parse_fila_none_of_bad (vs : List (List Char))
    (h : ∃ v ∈ vs, recortar v ≠ [] ∧ parse_int (recortar v) = none) :
    parse_fila vs = none := by
  induction vs with
  | nil => simp at h
  | cons v resto ih =>
    rcases h with ⟨w, hw, hne, hnone⟩
    rcases List.mem_cons.mp hw with rfl | hmem
    · simp [parse_fila, hne, hnone]
    · unfold parse_fila
      have hresto : parse_fila resto = none := ih ⟨w, hmem, hne, hnone⟩
      by_cases hv : recortar v = [] <;> simp [hv, hresto]

lemma convertir_none_of_mem (lineas : List String) (linea : String)
    (hmem : linea ∈ lineas) (hnone : convertir_linea linea = none) :
    convertir_csv_a_array lineas = none := by
  induction lineas with
  | nil => simp at hmem
  | cons l resto ih =>
    rcases List.mem_cons.mp hmem with rfl | hmem2
    · simp [convertir_csv_a_array, hnone]
    · unfold convertir_csv_a_array
      rw [ih hmem2]
      cases convertir_linea l <;> simp

/-- C6: if any line of the input contains a token that is non-empty after
stripping but does not parse as a decimal integer, the whole extraction
fails (`none`) — no partial result is produced. -/
theorem claim_C6 (lineas : List String) (linea : String)
    (hmem : linea ∈ lineas)
    (hbad : ∃ v ∈ dividir_comas linea.data,
      recortar v ≠ [] ∧ parse_int (recortar v) = none) :
    convertir_csv_a_array lineas = none :=
  convertir_none_of_mem lineas linea hmem
    (parse_fila_none_of_bad (dividir_comas linea.data) hbad)

/-- Witness for C6: the token `"a"` in the second line `"a,3"` makes the
whole extraction of `["1,2", "a,3"]` fail. -/
theorem claim_C6_witness :
    ("a,3" ∈ (["1,2", "a,3"] : List String)) ∧
    (∃ v ∈ dividir_comas ("a,3" : String).data,
      recortar v ≠ [] ∧ parse_int (recortar v) = none) ∧
    convertir_csv_a_array ["1,2", "a,3"] = none :=
  ⟨by decide, by decide, claim_C6 ["1,2", "a,3"] "a,3" (by decide) (by decide)⟩

/-! ## Image materialization (`arduino_test.py`, `CSVtoImageConverter`)
Configured dimensions default to `ancho = 22`, `alto = 18` (lines 13-22);
`array_a_imagen` (lines 60-104) checks `len(datos) == ancho * alto`, runs
the fallback dimension search otherwise, then reshapes row-major and
optionally rescales with `Image.NEAREST`. -/

/-- The fallback search (arduino_test.py lines 80-86): the first `h` in
`range(10, 50)` that evenly divides the pixel count, with
`w = total // h`; `none` when no such height exists. -/
def buscar_dimensiones (total_pixeles : ℕ) : Option (ℕ × ℕ) :=
  ((List.range' 10 40).find? (fun h => total_pixeles % h == 0)).map
    (fun h => (total_pixeles / h, h))

/-- The `(ancho, alto)` actually used for the reshape: the configured pair
when the length matches, otherwise the fallback result (configured pair
kept when the search finds nothing, and the reshape then fails). -/
def ajustar_dimensiones (ancho alto total_pixeles : ℕ) : ℕ × ℕ :=
  if total_pixeles = ancho * alto then (ancho, alto)
  else
    match buscar_dimensiones total_pixeles with
    | some (w, h) => (w, h)
    | none => (ancho, alto)

/-- Whether `array_a_imagen` enters the fallback branch
(`len(datos) != self.ancho * self.alto`, line 75). -/
def usa_fallback (ancho alto total_pixeles : ℕ) : Bool :=
  total_pixeles != ancho * alto

/-- Row-major reshape `datos.reshape((alto, ancho))`: `alto` rows of
`ancho` consecutive entries. -/
def chunkFilas : ℕ → ℕ → List ℕ → List (List ℕ)
  | 0, _, _ => []
  | filas + 1, ancho, datos => datos.take ancho :: chunkFilas filas ancho (datos.drop ancho)

/-- `array_a_imagen` up to the grayscale grid (arduino_test.py lines
71-92): adjust the dimensions, then reshape row-major; `none` models the
`reshape` exception path that makes the function return `None`. -/
def array_a_imagen (ancho alto : ℕ) (datos : List ℕ) : Option (ℕ × ℕ × List (List ℕ)) :=
  let dims := ajustar_dimensiones ancho alto datos.length
  if datos.length = dims.2 * dims.1 then
    some (dims.1, dims.2, chunkFilas dims.2 dims.1 datos)
  else none

/-- C2 counterexample: with configured 22×18, a flat array of length 400
makes the fallback select height 10 and width 40 — `10` is the first value
in `range(10, 50)` and it already divides 400 — not height 20 and width 20
as claimed. -/
theorem claim_C2_counterexample :
    ajustar_dimensiones 22 18 400 = (40, 10) ∧
    ajustar_dimensiones 22 18 400 ≠ (20, 20) ∧
    buscar_dimensiones 400 = some (40, 10) := by decide

/-- C2 (amended): with configured dimensions 22×18, a flat array of length
396 = 22·18 is reshaped directly row-major without invoking the fallback
search, while a flat array of length 400 triggers the fallback, which
selects height 10 and width 40 (the first height from 10 upward that
evenly divides 400). -/
theorem claim_C2_amended (datos : List ℕ) (hlen : datos.length = 396) :
    usa_fallback 22 18 datos.length = false ∧
    array_a_imagen 22 18 datos = some (22, 18, chunkFilas 18 22 datos) ∧
    usa_fallback 22 18 400 = true ∧
    ajustar_dimensiones 22 18 400 = (40, 10) := by
  have hadj : ajustar_dimensiones 22 18 396 = (22, 18) := by decide
  refine ⟨by rw [hlen]; decide, ?_, by decide, by decide⟩
  simp only [array_a_imagen, hlen, hadj]
  norm_num

/-- Witness for C2 (amended) at the concrete array of 396 zero pixels. -/
theorem claim_C2_amended_witness :
    usa_fallback 22 18 (List.replicate 396 0).length = false ∧
    array_a_imagen 22 18 (List.replicate 396 0) =
      some (22, 18, chunkFilas 18 22 (List.replicate 396 0)) ∧
    usa_fallback 22 18 400 = true ∧
    ajustar_dimensiones 22 18 400 = (40, 10) :=
  claim_C2_amended (List.replicate 396 0) (by rw [List.length_replicate])

/-! ## Nearest-neighbor scaling (`arduino_test.py` lines 94-98)
`imagen.resize((ancho*escalar, alto*escalar), Image.NEAREST)`.  PIL's
NEAREST filter maps destination pixel `(X, Y)` of a `W×H` target to source
pixel `(⌊(X+1/2)·w/W⌋, ⌊(Y+1/2)·h/H⌋)`; modelled below from the spec's
description of nearest-neighbor scaling in exact integer arithmetic
(`⌊(X+1/2)·w/W⌋ = (2X+1)·w / (2W)` with truncating division). -/

/-- Nearest-neighbor resize of a `w×h` source image to `W×H`, images as
pixel functions. -/
def redimensionar_nearest (px : ℕ → ℕ → ℕ) (w h W H : ℕ) : ℕ → ℕ → ℕ :=
  fun X Y => px (((2 * X + 1) * w) / (2 * W)) (((2 * Y + 1) * h) / (2 * H))

/-- The scaling step of `array_a_imagen`: resize `ancho×alto` to
`(ancho*escalar)×(alto*escalar)` with the NEAREST filter (lines 96-98). -/
def escalar_imagen (px : ℕ → ℕ → ℕ) (ancho alto escalar : ℕ) : ℕ → ℕ → ℕ :=
  redimensionar_nearest px ancho alto (ancho * escalar) (alto * escalar)

/-- The target size `(nuevo_ancho, nuevo_alto)` (lines 96-97). -/
def nuevo_tamano (ancho alto escalar : ℕ) : ℕ × ℕ :=
  (ancho * escalar, alto * escalar)

lemma nearest_index (a b n k : ℕ) (ha : 0 < a) (hn : 0 < n) (hk : k < n) :
    ((2 * (b * n + k) + 1) * a) / (2 * (a * n)) = b := by
  have h1 : (2 * (b * n + k) + 1) * a = a * ((2 * k + 1) + (2 * n) * b) := by ring
  have h2 : 2 * (a * n) = a * (2 * n) := by ring
  rw [h1, h2, Nat.mul_div_mul_left _ _ ha,
    Nat.add_mul_div_left _ _ (by omega : 0 < 2 * n),
    Nat.div_eq_of_lt (by omega)]
  omega

/-- C9: enlarging a `w×h` grid by an integer factor `s` with the NEAREST
filter produces a `(w·s)×(h·s)` image in which every destination pixel
`(x·s + dx, y·s + dy)` with `dx, dy < s` equals the source pixel `(x, y)`:
each source pixel is replicated as a uniform `s×s` block, with no averaging
or blending. -/
theorem claim_C9 (px : ℕ → ℕ → ℕ) (w h s x y dx dy : ℕ)
    (hw : 0 < w) (hh : 0 < h) (hs : 0 < s) (hdx : dx < s) (hdy : dy < s) :
    nuevo_tamano w h s = (w * s, h * s) ∧
    escalar_imagen px w h s (x * s + dx) (y * s + dy) = px x y := by
  refine ⟨rfl, ?_⟩
  unfold escalar_imagen redimensionar_nearest
  rw [nearest_index w x s dx hw hs hdx, nearest_index h y s dy hh hs hdy]

/-- Witness for C9: a 2×2 grid scaled by 3; destination pixel `(5, 1)`
(block offset `(2, 1)` inside source pixel `(1, 0)`) carries the source
value. -/
theorem claim_C9_witness :
    nuevo_tamano 2 2 3 = (2 * 3, 2 * 3) ∧
    escalar_imagen (fun i j => 10 * i + j) 2 2 3 (1 * 3 + 2) (0 * 3 + 1) =
      (fun i j => 10 * i + j) 1 0 :=
  claim_C9 (fun i j => 10 * i + j) 2 2 3 1 0 2 1 (by decide) (by decide)
    (by decide) (by decide) (by decide)

/-! ## Telemetry publishers and their counters
`arduino_detection.py` `__init__` lines 46-50 and `enviar_a_flespi` lines
232-292; `intentitobb.py` module globals lines 17-41 and
`publish_telemetry` lines 136-244. -/

/-- The running counters of `ArduinoFlespiMQTT` (lines 46-50). -/
structure Estadisticas where
  total_envios : ℕ
  envios_humo : ℕ
  envios_normal : ℕ
  errores : ℕ
deriving DecidableEq

/-- All counters start at zero (`__init__`). -/
def estadisticas_iniciales : Estadisticas :=
  { total_envios := 0, envios_humo := 0, envios_normal := 0, errores := 0 }

/-- Counter effect of `enviar_a_flespi` (lines 232-292), with the MQTT
publish outcome abstracted as `publish_exitoso` (`result.rc ==
MQTT_ERR_SUCCESS`; the exception path behaves like a failed publish).
Returns the new counters and the function's boolean result.  Disconnected:
count an error, return `False` (lines 234-237).  Successful publish:
`total_envios += 1` and exactly one of `envios_humo` / `envios_normal`
(lines 273-283).  Failed publish: `errores += 1` (lines 284-292). -/
def enviar_a_flespi (is_connected_mqtt publish_exitoso : Bool)
    (anomalia : String) (s : Estadisticas) : Estadisticas × Bool :=
  if !is_connected_mqtt then
    ({ s with errores := s.errores + 1 }, false)
  else if publish_exitoso then
    ({ s with
        total_envios := s.total_envios + 1,
        envios_humo := if anomalia = "humo" then s.envios_humo + 1 else s.envios_humo,
        envios_normal := if anomalia = "humo" then s.envios_normal else s.envios_normal + 1 },
      true)
  else
    ({ s with errores := s.errores + 1 }, false)

/-- Base coordinates of the simulated drone (intentitobb.py lines 18-20). -/
def base_lat : ℚ := -34.6123

def base_lon : ℚ := -58.3772

def base_alt : ℚ := 234.2

/-- The mutable globals of `intentitobb.py` (lines 22-37) that
`publish_telemetry` can touch.  The simulator keeps no error counter. -/
structure EstadoDron where
  reading_count : ℕ
  gps_loss_count : ℕ
  battery_level : ℚ
  current_lat : ℚ
  current_lon : ℚ
  current_alt : ℚ
  prev_lat : ℚ
  prev_lon : ℚ
deriving DecidableEq

def estado_dron_inicial : EstadoDron :=
  { reading_count := 0, gps_loss_count := 0, battery_level := 100,
    current_lat := base_lat, current_lon := base_lon, current_alt := base_alt,
    prev_lat := base_lat, prev_lon := base_lon }

/-- Oracle for the simulator's `random.randint` draws and for the MQTT
publish outcome. -/
structure OraculoAzar where
  r_anomalia : ℕ
  d_lat : ℤ
  d_lon : ℤ
  d_alt : ℤ
  clamp_lat : ℤ
  clamp_lon : ℤ
  publish_exitoso : Bool

/-- `simulate_drone_movement` (intentitobb.py lines 122-134), floats as
exact rationals. -/
def simulate_drone_movement (o : OraculoAzar) (s : EstadoDron) : EstadoDron :=
  let lat := s.current_lat + (o.d_lat : ℚ) / 1000000
  let lon := s.current_lon + (o.d_lon : ℚ) / 1000000
  let alt := base_alt + (o.d_alt : ℚ) / 10
  let lat2 := if |lat - base_lat| > 0.005 then base_lat + (o.clamp_lat : ℚ) / 10000 else lat
  let lon2 := if |lon - base_lon| > 0.005 then base_lon + (o.clamp_lon : ℚ) / 10000 else lon
  { s with current_lat := lat2, current_lon := lon2, current_alt := alt }

/-- The state effect of `calculate_drone_speed` (lines 86-97), which is
only invoked from the statistics block printed on every fifth successful
publish; the returned speed value is display-only. -/
def calculate_drone_speed_prev (s : EstadoDron) : EstadoDron :=
  { s with prev_lat := s.current_lat, prev_lon := s.current_lon }

/-- The connected branch of `publish_telemetry` (lines 144-244):
increment `reading_count`, pick an anomaly every fifth reading, move the
drone or count a GPS loss, decrement (and wrap) the battery, and — on a
successful publish at a fifth reading — update `prev_lat`/`prev_lon` via
the statistics printout.  Payload fields (temperature, humidity, altitude,
JSON) are display-only and not part of the retained state. -/
def publish_telemetry_conectado (o : OraculoAzar) (s : EstadoDron) : EstadoDron :=
  let rc := s.reading_count + 1
  let anomaly_type := if rc % 5 = 0 then o.r_anomalia else 0
  let s1 := { s with reading_count := rc }
  let s2 := if anomaly_type ≠ 2 then simulate_drone_movement o s1
            else { s1 with gps_loss_count := s1.gps_loss_count + 1 }
  let bat := s2.battery_level - 0.1
  let s3 := { s2 with battery_level := if bat < 0 then 100 else bat }
  if o.publish_exitoso ∧ rc % 5 = 0 then calculate_drone_speed_prev s3 else s3

/-- `publish_telemetry` (intentitobb.py lines 136-244): when not connected
it prints a warning and returns at once (lines 140-142), touching no
state at all — in particular, no error counter exists to increment. -/
def publish_telemetry (connected : Bool) (o : OraculoAzar) (s : EstadoDron) : EstadoDron :=
  if !connected then s else publish_telemetry_conectado o s

/-- C8 counterexample: in the drone simulator (`intentitobb.py`), a publish
attempt made while disconnected leaves the entire program state unchanged —
`reading_count`, `gps_loss_count`, battery and position are all untouched
and the module has no error counter at all — so the attempt is *not*
"counted as an error", contrary to the claim's "every publisher
component". -/
theorem claim_C8_counterexample :
    publish_telemetry false
      { r_anomalia := 1, d_lat := 0, d_lon := 0, d_alt := 0,
        clamp_lat := 0, clamp_lon := 0, publish_exitoso := true }
      estado_dron_inicial = estado_dron_inicial := rfl

/-- C8 (amended): in the capture pipeline a publish attempt made while the
MQTT link is disconnected increments `errores`, leaves `total_envios`,
`envios_humo` and `envios_normal` unchanged, and reports failure without
retrying; the drone simulator, which keeps no error counter, leaves its
entire state unchanged on such an attempt. -/
theorem claim_C8_amended :
    (∀ (publish_exitoso : Bool) (anomalia : String) (s : Estadisticas),
      (enviar_a_flespi false publish_exitoso anomalia s).1.errores = s.errores + 1 ∧
      (enviar_a_flespi false publish_exitoso anomalia s).1.total_envios = s.total_envios ∧
      (enviar_a_flespi false publish_exitoso anomalia s).1.envios_humo = s.envios_humo ∧
      (enviar_a_flespi false publish_exitoso anomalia s).1.envios_normal = s.envios_normal ∧
      (enviar_a_flespi false publish_exitoso anomalia s).2 = false) ∧
    (∀ (o : OraculoAzar) (s : EstadoDron), publish_telemetry false o s = s) := by
  constructor
  · intro ok an s
    simp [enviar_a_flespi]
  · intro o s
    simp [publish_telemetry]

/-- C10: the counter equality `total_envios = envios_humo + envios_normal`
holds for the initial counters and is preserved by every call of
`enviar_a_flespi`; moreover a successful publish increments `total_envios`
and exactly one of `envios_humo` (verdict `"humo"`) or `envios_normal`,
while a failed or disconnected publish changes none of the three. -/
theorem claim_C10 (conn ok : Bool) (anomalia : String) (s : Estadisticas)
    (hinv : s.total_envios = s.envios_humo + s.envios_normal) :
    estadisticas_iniciales.total_envios =
      estadisticas_iniciales.envios_humo + estadisticas_iniciales.envios_normal ∧
    (enviar_a_flespi conn ok anomalia s).1.total_envios =
      (enviar_a_flespi conn ok anomalia s).1.envios_humo +
        (enviar_a_flespi conn ok anomalia s).1.envios_normal ∧
    ((enviar_a_flespi conn ok anomalia s).2 = true →
      (enviar_a_flespi conn ok anomalia s).1.total_envios = s.total_envios + 1 ∧
      ((anomalia = "humo" →
          (enviar_a_flespi conn ok anomalia s).1.envios_humo = s.envios_humo + 1 ∧
          (enviar_a_flespi conn ok anomalia s).1.envios_normal = s.envios_normal) ∧
        (anomalia ≠ "humo" →
          (enviar_a_flespi conn ok anomalia s).1.envios_humo = s.envios_humo ∧
          (enviar_a_flespi conn ok anomalia s).1.envios_normal = s.envios_normal + 1))) ∧
    ((enviar_a_flespi conn ok anomalia s).2 = false →
      (enviar_a_flespi conn ok anomalia s).1.total_envios = s.total_envios ∧
      (enviar_a_flespi conn ok anomalia s).1.envios_humo = s.envios_humo ∧
      (enviar_a_flespi conn ok anomalia s).1.envios_normal = s.envios_normal) := by
  unfold enviar_a_flespi
  cases conn <;> cases ok <;> by_cases han : anomalia = "humo" <;>
    simp [han, estadisticas_iniciales] <;> omega

/-- Witness for C10: starting from the zeroed counters with a connected,
successful publish of the `"humo"` verdict. -/
theorem claim_C10_witness :
    estadisticas_iniciales.total_envios =
      estadisticas_iniciales.envios_humo + estadisticas_iniciales.envios_normal ∧
    (enviar_a_flespi true true "humo" estadisticas_iniciales).1.total_envios =
      (enviar_a_flespi true true "humo" estadisticas_iniciales).1.envios_humo +
        (enviar_a_flespi true true "humo" estadisticas_iniciales).1.envios_normal ∧
    ((enviar_a_flespi true true "humo" estadisticas_iniciales).2 = true →
      (enviar_a_flespi true true "humo" estadisticas_iniciales).1.total_envios =
        estadisticas_iniciales.total_envios + 1 ∧
      (("humo" = "humo" →
          (enviar_a_flespi true true "humo" estadisticas_iniciales).1.envios_humo =
            estadisticas_iniciales.envios_humo + 1 ∧
          (enviar_a_flespi true true "humo" estadisticas_iniciales).1.envios_normal =
            estadisticas_iniciales.envios_normal) ∧
        (("humo" : String) ≠ "humo" →
          (enviar_a_flespi true true "humo" estadisticas_iniciales).1.envios_humo =
            estadisticas_iniciales.envios_humo ∧
          (enviar_a_flespi true true "humo" estadisticas_iniciales).1.envios_normal =
            estadisticas_iniciales.envios_normal + 1))) ∧
    ((enviar_a_flespi true true "humo" estadisticas_iniciales).2 = false →
      (enviar_a_flespi true true "humo" estadisticas_iniciales).1.total_envios =
        estadisticas_iniciales.total_envios ∧
      (enviar_a_flespi true true "humo" estadisticas_iniciales).1.envios_humo =
        estadisticas_iniciales.envios_humo ∧
      (enviar_a_flespi true true "humo" estadisticas_iniciales).1.envios_normal =
        estadisticas_iniciales.envios_normal) :=
  claim_C10 true true "humo" estadisticas_iniciales rfl

end ArduinoML
